import Mathlib

/-!
Verification of the testflightTracker polling/notification pipeline.

The Python source is shallowly embedded:
* `processResult` / `runRound` / `roundDispatch` model the streaming
  consumption loop of `check_and_notify` in `main.py` (lines 76-116):
  classification of each completed fetch result, the sentinel ("full")
  filter, per-round deduplication by `(group, url, lowercased status)`,
  and the construction of the notification batch. The loop recovers the
  group and url through `task_map.get(t)` (lines 93-97); since
  `asyncio.as_completed` yields freshly created wrapper coroutines and
  never the original Task objects that key `task_map`, that lookup
  misses on every iteration (`taskMapLookup`), so the body always runs
  with `group = ""` and `url = ""`.
* `fetchWithRetry` models the retry loop of `get_beta_status_text`
  in `main.py` (lines 33-44); the network call itself and the HTML
  extraction of a successful response body are external collaborators
  and are abstracted by the per-attempt outcome function.
* `decrypt_secret` models `Notifier.decrypt_secret` in `notify.py`
  (lines 33-43); the AES-ECB primitive and base64 decoding are external
  collaborators, abstracted by the `aesDecrypt` function argument, and
  byte strings are `List Nat`. The final strict UTF-8 `.decode()` of
  line 43 is modelled by the `validUtf8` success condition, a failing
  decode being a raised `UnicodeDecodeError`.
* `notifyTaskList` / `notifyModel` model `Notifier.notify` in
  `notify.py` (lines 97-120): task construction per configured endpoint
  filtered by the requested platforms, and per-endpoint outcome
  collection where every exception is caught inside the send coroutine.
-/

set_option autoImplicit false

namespace TFTracker

/-- One completed fetch result as consumed by the `as_completed` loop in
`check_and_notify`: the group, the url, and the optional status text
(`None` when fetch/parse failed or the fragment was absent). -/
abbrev Completion := String × String × Option String

/-- Python's `str.lower()` (ASCII case folding, which covers every status
string this service handles). Implemented by structural recursion over the
character list so that proofs can evaluate it. -/
def pyLower (s : String) : String :=
  String.mk (s.data.map Char.toLower)

/-- Substring containment on character lists, the meaning of Python's
`needle in hay` for strings. -/
def hasSubstring (needle : List Char) : List Char → Bool
  | [] => needle.isEmpty
  | c :: hay => List.isPrefixOf needle (c :: hay) || hasSubstring needle hay

/-- The sentinel test of `check_and_notify` line 98:
`'full' in result.lower()`. -/
def isFullStatus (r : String) : Bool :=
  hasSubstring "full".data (pyLower r).data

/-- The notification line format of `check_and_notify` line 105:
`f"{group} - {url}: {result}"`. -/
def formatLine (group url r : String) : String :=
  group ++ " - " ++ url ++ ": " ++ r

/-- The dedup key of `check_and_notify` line 103:
`(group, url, result.lower())`. -/
def dedupKey (group url r : String) : String × String × String :=
  (group, url, pyLower r)

/-- The mutable round state of `check_and_notify` lines 86-87:
`notify_results` accumulates lines, `seen` the dedup keys. -/
structure RoundState where
  notify_results : List String
  seen : List (String × String × String)
deriving Repr, DecidableEq

/-- The body of the `as_completed` loop in `check_and_notify`
lines 88-108 for one completed task: skip falsy results (`None` or the
empty string), skip sentinel ("full") statuses, and otherwise append one
line unless the dedup key was already seen. -/
def processResult (st : RoundState) (group url : String)
    (result : Option String) : RoundState :=
  match result with
  | none => st
  | some r =>
    if r = "" then st
    else if isFullStatus r then st
    else
      let key := dedupKey group url r
      if key ∈ st.seen then st
      else { notify_results := st.notify_results ++ [formatLine group url r],
             seen := key :: st.seen }

/-- `task_map.get(t)` at `check_and_notify` line 93. `task_map` is keyed
by the original `asyncio.Task` objects, but iterating
`asyncio.as_completed(tasks)` yields freshly created wrapper coroutines,
never those Task objects, so the lookup misses on every iteration and
returns `None`, whatever completion arrived. -/
def taskMapLookup (_ : Completion) : Option (String × String) :=
  none

/-- `check_and_notify` lines 93-97: unpack the lookup result when it is
truthy, otherwise fall back to `group, url = "", ""`. -/
def resolveTarget (c : Completion) : String × String :=
  match taskMapLookup c with
  | some gu => gu
  | none => ("", "")

/-- The whole streaming loop of `check_and_notify` lines 86-108,
consuming completed fetch results in arrival order from the empty state.
A completion's first two components are the group and url `task_map`
holds for the task that produced it; because `taskMapLookup` misses,
every iteration of the body instead runs with the `("", "")`
fallback. -/
def runRound (cs : List Completion) : RoundState :=
  cs.foldl (fun st c =>
    processResult st (resolveTarget c).1 (resolveTarget c).2 c.2.2) ⟨[], []⟩

/-- A completion as the loop body effectively receives it: the true
group and url replaced by the `("", "")` fallback of the missed
lookup. -/
def degradeCompletion (c : Completion) : Completion :=
  ("", "", c.2.2)

/-- The status text of a completion that survives the truthiness and
sentinel filters of lines 92-98; independent of group and url. -/
def eligibleStatus (c : Completion) : Option String :=
  match c.2.2 with
  | none => none
  | some r =>
    if r = "" then none
    else if isFullStatus r then none
    else some r

/-- The batch built by `check_and_notify` lines 110-115. `platforms` is
the argument passed to `Notifier.notify`. -/
structure NotificationBatch where
  title : String
  content : String
  platforms : Option (List String)
deriving Repr, DecidableEq

/-- Lines 110-115 of `check_and_notify`: dispatch one batch, with the
fixed title and `platforms=["bark"]`, iff `notify_results` is non-empty. -/
def roundDispatch (cs : List Completion) : Option NotificationBatch :=
  let st := runRound cs
  if st.notify_results.isEmpty then none
  else some { title := "TestFlight 状态更新",
              content := String.intercalate "\n" st.notify_results,
              platforms := some ["bark"] }

/-- One attempt outcome of the `session.get` + `response.text()` call
inside `get_beta_status_text`: `.ok body` when the request yields a
body, `.error ()` when it raises a network-level error. -/
abbrev AttemptOutcome := Except Unit String

/-- The retry loop of `get_beta_status_text` (main.py lines 33-41): up to
`fuel` further attempts starting at index `attempt`; on an exception the
loop sleeps `0.5 * 2 ** attempt` seconds and retries. Returns the
response text (if any) together with the list of sleep delays performed,
in seconds. -/
def retryLoop (outcome : Nat → AttemptOutcome) :
    Nat → Nat → Option String × List ℚ
  | 0, _ => (none, [])
  | fuel + 1, attempt =>
    match outcome attempt with
    | .ok s => (some s, [])
    | .error _ =>
      let rest := retryLoop outcome fuel (attempt + 1)
      (rest.1, (1 / 2 : ℚ) * 2 ^ attempt :: rest.2)

/-- The retry phase of `get_beta_status_text`: `range(3)` attempts from
attempt 0. A `none` first component models the function returning `None`
(after logging the last error) instead of raising; the HTML extraction
applied to a successful body is an external collaborator and is not
modelled here. -/
def fetchWithRetry (outcome : Nat → AttemptOutcome) : Option String × List ℚ :=
  retryLoop outcome 3 0

/-- Specification-side view of the loop body: the entry `(group, url, r)`
is eligible for notification iff the result is present, truthy and
non-sentinel. Used to state round invariants. -/
def eligibleEntry (c : Completion) : Option (String × String × String) :=
  match c.2.2 with
  | none => none
  | some r =>
    if r = "" then none
    else if isFullStatus r then none
    else some (c.1, c.2.1, r)

/-- Key of an eligible entry, matching `dedupKey`. -/
def entryKey (e : String × String × String) : String × String × String :=
  dedupKey e.1 e.2.1 e.2.2

/-- First-occurrence deduplication by key, given the keys already seen:
the specification of the `seen`-set filtering done by the loop. -/
def firstByKey : List (String × String × String) →
    List (String × String × String) → List (String × String × String)
  | [], _ => []
  | e :: es, ks =>
    if entryKey e ∈ ks then firstByKey es ks
    else e :: firstByKey es (entryKey e :: ks)

/-- Format an eligible entry as its notification line. -/
def formatEntry (e : String × String × String) : String :=
  formatLine e.1 e.2.1 e.2.2

/-- One EnterpriseIM (企业微信) endpoint configuration from
`NOFITY_CONFIG["wechat"]`. `secret_enc` is `none` when the dict lacks
that key, the case `send_wechat` rejects first. -/
structure WechatConf where
  corp_id : String
  agent_id : String
  secret_enc : Option String
  to_user : String
deriving Repr, DecidableEq

/-- The notification configuration consumed by `Notifier.__init__`. -/
structure NotifyConfig where
  webhook : List String
  wechat : List WechatConf
  bark : List String
deriving Repr, DecidableEq

/-- One queued send coroutine of `Notifier.notify`. -/
inductive SendTask where
  | webhookT (url : String)
  | wechatT (conf : WechatConf)
  | barkT (url : String)
deriving Repr, DecidableEq

/-- The channel name a task belongs to, as written in `platforms`. -/
def channelOf : SendTask → String
  | .webhookT _ => "webhook"
  | .wechatT _ => "wechat"
  | .barkT _ => "bark"

/-- The test `platforms is None or "<channel>" in platforms` of
`Notifier.notify` lines 105, 108 and 111. -/
def wantChannel (platforms : Option (List String)) (c : String) : Bool :=
  match platforms with
  | none => true
  | some ps => ps.contains c

/-- Task construction of `Notifier.notify` lines 104-112: webhook tasks,
then wechat tasks, then bark tasks — one per configured endpoint of
every requested channel, in configuration order. -/
def notifyTaskList (config : NotifyConfig)
    (platforms : Option (List String)) : List SendTask :=
  (if wantChannel platforms "webhook"
    then config.webhook.map SendTask.webhookT else [])
  ++ (if wantChannel platforms "wechat"
    then config.wechat.map SendTask.wechatT else [])
  ++ (if wantChannel platforms "bark"
    then config.bark.map SendTask.barkT else [])

/-- Behaviour of one endpoint's network interaction (an external
collaborator): the try-block of the send coroutine either completes with
a response body or raises with an error message. -/
inductive SendSpec where
  | succeeds (resp : String)
  | fails (err : String)
deriving Repr, DecidableEq

/-- The observable outcome of one send coroutine: whether the except
branch was taken, and the returned string. -/
structure SendOutcome where
  success : Bool
  detail : String
deriving Repr, DecidableEq

/-- The body of `send_webhook` / `send_wechat` / `send_bark`: every
exception is caught inside the coroutine and converted to a failure
string, so a send never propagates an exception; `send_wechat` first
rejects a configuration missing `secret_enc`. -/
def runSendTask : SendTask → SendSpec → SendOutcome
  | .webhookT _, .succeeds r => ⟨true, r⟩
  | .webhookT _, .fails e => ⟨false, "Webhook发送失败: " ++ e⟩
  | .wechatT conf, spec =>
    match conf.secret_enc with
    | none => ⟨false, "企业微信发送失败: 缺少secret_enc"⟩
    | some _ =>
      match spec with
      | .succeeds r => ⟨true, r⟩
      | .fails e => ⟨false, "企业微信发送失败: " ++ e⟩
  | .barkT _, .succeeds r => ⟨true, r⟩
  | .barkT _, .fails e => ⟨false, "Bark发送失败: " ++ e⟩

/-- The `asyncio.gather(*tasks, return_exceptions=True)` of
`Notifier.notify` line 114: one outcome per queued task, index-aligned;
`beh i` is the network behaviour of the i-th task's endpoint. -/
def gatherOutcomes (beh : Nat → SendSpec) :
    Nat → List SendTask → List SendOutcome
  | _, [] => []
  | i, t :: ts => runSendTask t (beh i) :: gatherOutcomes beh (i + 1) ts

/-- `Notifier.notify` (notify.py lines 97-120): build the task list for
the requested platforms and gather every task's outcome. -/
def notifyModel (config : NotifyConfig) (beh : Nat → SendSpec)
    (platforms : Option (List String)) : List SendOutcome :=
  gatherOutcomes beh 0 (notifyTaskList config platforms)

/-- Byte strings, as lists of byte values. -/
abbrev Bytes := List Nat

/-- Python's `decrypted[:-pad]`: for `pad = 0` the slice `[:0]` is empty;
otherwise the slice end `len - pad` is clamped at 0. -/
def pyDropTrailing (xs : Bytes) (pad : Nat) : Bytes :=
  if pad = 0 then [] else xs.take (xs.length - pad)

/-- The key sizes `AES.new` accepts; any other size raises. -/
def aesKeySizeValid (key : Bytes) : Bool :=
  key.length = 16 || key.length = 24 || key.length = 32

/-- A UTF-8 continuation byte, `0x80..0xBF`. -/
def contByte (b : Nat) : Bool :=
  128 ≤ b && b ≤ 191

/-- Strict UTF-8 validity of a byte string: the success condition of the
`.decode()` at notify.py line 43 (CPython's strict UTF-8 decoder, which
rejects stray continuation bytes, truncated sequences, overlong forms,
surrogates and code points beyond U+10FFFF). -/
def validUtf8 : List Nat → Bool
  | [] => true
  | b :: rest =>
    if b ≤ 127 then validUtf8 rest
    else if 194 ≤ b && b ≤ 223 then
      match rest with
      | b1 :: rest2 => contByte b1 && validUtf8 rest2
      | [] => false
    else if b = 224 then
      match rest with
      | b1 :: b2 :: rest2 =>
        (160 ≤ b1 && b1 ≤ 191) && contByte b2 && validUtf8 rest2
      | _ => false
    else if (225 ≤ b && b ≤ 236) || b = 238 || b = 239 then
      match rest with
      | b1 :: b2 :: rest2 => contByte b1 && contByte b2 && validUtf8 rest2
      | _ => false
    else if b = 237 then
      match rest with
      | b1 :: b2 :: rest2 =>
        (128 ≤ b1 && b1 ≤ 159) && contByte b2 && validUtf8 rest2
      | _ => false
    else if b = 240 then
      match rest with
      | b1 :: b2 :: b3 :: rest2 =>
        (144 ≤ b1 && b1 ≤ 191) && contByte b2 && contByte b3 &&
          validUtf8 rest2
      | _ => false
    else if 241 ≤ b && b ≤ 243 then
      match rest with
      | b1 :: b2 :: b3 :: rest2 =>
        contByte b1 && contByte b2 && contByte b3 && validUtf8 rest2
      | _ => false
    else if b = 244 then
      match rest with
      | b1 :: b2 :: b3 :: rest2 =>
        (128 ≤ b1 && b1 ≤ 143) && contByte b2 && contByte b3 &&
          validUtf8 rest2
      | _ => false
    else false

/-- `Notifier.decrypt_secret` (notify.py lines 33-43). The AES-ECB
primitive is the external collaborator `aesDecrypt` (key and ciphertext
to plaintext) and `secret_enc` stands for the already base64-decoded
ciphertext bytes. `pad = decrypted[-1]` is read unconditionally and
`decrypted[:-pad]` is sliced with no validation of the pad byte; the
final `.decode()` then returns the sliced remainder when it is valid
UTF-8 and raises `UnicodeDecodeError` otherwise. -/
def decrypt_secret (aes_key : Option Bytes)
    (aesDecrypt : Bytes → Bytes → Bytes) (secret_enc : Bytes) :
    Except String Bytes :=
  match aes_key with
  | none => .error "AES key 未提供"
  | some key =>
    if key.isEmpty then .error "AES key 未提供"
    else if aesKeySizeValid key then
      let decrypted := aesDecrypt key secret_enc
      match decrypted.getLast? with
      | none => .error "IndexError: index out of range"
      | some pad =>
        let trimmed := pyDropTrailing decrypted pad
        if validUtf8 trimmed then .ok trimmed
        else .error "UnicodeDecodeError"
    else .error "Incorrect AES key length"

end TFTracker

namespace TFTracker

theorem processResult_none (st : RoundState) (g u : String) :
    processResult st g u none = st := rfl

theorem processResult_empty (st : RoundState) (g u : String) :
    processResult st g u (some "") = st := rfl

theorem processResult_full (st : RoundState) (g u s : String)
    (h : isFullStatus s = true) : processResult st g u (some s) = st := by
  by_cases hs0 : s = ""
  · subst hs0; rfl
  · simp [processResult, hs0, h]

theorem processResult_seen (st : RoundState) (g u s : String)
    (hs0 : s ≠ "") (h : isFullStatus s = false)
    (hseen : dedupKey g u s ∈ st.seen) :
    processResult st g u (some s) = st := by
  simp [processResult, hs0, h, hseen]

theorem processResult_new (st : RoundState) (g u s : String)
    (hs0 : s ≠ "") (h : isFullStatus s = false)
    (hseen : dedupKey g u s ∉ st.seen) :
    processResult st g u (some s) =
      { notify_results := st.notify_results ++ [formatLine g u s],
        seen := dedupKey g u s :: st.seen } := by
  simp [processResult, hs0, h, hseen]

theorem eligibleEntry_none (g u : String) :
    eligibleEntry (g, u, none) = none := rfl

theorem eligibleEntry_full (g u s : String) (h : isFullStatus s = true) :
    eligibleEntry (g, u, some s) = none := by
  by_cases hs0 : s = ""
  · subst hs0; rfl
  · simp [eligibleEntry, hs0, h]

theorem eligibleEntry_keep (g u s : String)
    (hs0 : s ≠ "") (h : isFullStatus s = false) :
    eligibleEntry (g, u, some s) = some (g, u, s) := by
  simp [eligibleEntry, hs0, h]

/-- Generalized loop invariant: folding `processResult` from an arbitrary
state appends exactly the formatted first occurrences of eligible entries
whose key is not yet in `seen`, and pushes their keys onto `seen`. -/
theorem foldl_processResult_spec (cs : List Completion)
    (res : List String) (seen : List (String × String × String)) :
    (cs.foldl (fun st c => processResult st c.1 c.2.1 c.2.2)
      ⟨res, seen⟩).notify_results =
      res ++ (firstByKey (cs.filterMap eligibleEntry) seen).map formatEntry := by
  induction cs generalizing res seen with
  | nil => simp [firstByKey]
  | cons c cs ih =>
    rcases c with ⟨g, u, r⟩
    match r with
    | none =>
      rw [List.foldl_cons]
      show (cs.foldl _ (processResult ⟨res, seen⟩ g u none)).notify_results = _
      rw [processResult_none, List.filterMap_cons, eligibleEntry_none]
      exact ih res seen
    | some s =>
      rw [List.foldl_cons]
      show (cs.foldl _ (processResult ⟨res, seen⟩ g u (some s))).notify_results = _
      by_cases hs0 : s = ""
      · subst hs0
        rw [processResult_empty, List.filterMap_cons]
        have : eligibleEntry (g, u, some "") = none := rfl
        rw [this]
        exact ih res seen
      · by_cases hfull : isFullStatus s = true
        · rw [processResult_full _ _ _ _ hfull, List.filterMap_cons,
            eligibleEntry_full _ _ _ hfull]
          exact ih res seen
        · rw [Bool.not_eq_true] at hfull
          have hek : entryKey (g, u, s) = dedupKey g u s := rfl
          by_cases hseen : dedupKey g u s ∈ seen
          · rw [processResult_seen _ _ _ _ hs0 hfull hseen, List.filterMap_cons,
              eligibleEntry_keep _ _ _ hs0 hfull]
            rw [ih res seen]
            simp [firstByKey, hek, hseen]
          · rw [processResult_new _ _ _ _ hs0 hfull hseen, List.filterMap_cons,
              eligibleEntry_keep _ _ _ hs0 hfull]
            rw [ih (res ++ [formatLine g u s]) (dedupKey g u s :: seen)]
            simp [firstByKey, hek, hseen, formatEntry, List.append_assoc]

/-- The round's notification lines are exactly the formatted first
occurrences, by key, of the eligible completed results, in arrival
order. -/
theorem eligibleEntry_degrade (c : Completion) :
    eligibleEntry (degradeCompletion c) =
      (eligibleStatus c).map (fun s => ("", "", s)) := by
  rcases c with ⟨g, u, r⟩
  match r with
  | none => rfl
  | some s =>
    by_cases hs0 : s = ""
    · simp [degradeCompletion, eligibleEntry, eligibleStatus, hs0]
    · by_cases hfull : isFullStatus s = true
      · simp [degradeCompletion, eligibleEntry, eligibleStatus, hs0, hfull]
      · rw [Bool.not_eq_true] at hfull
        simp [degradeCompletion, eligibleEntry, eligibleStatus, hs0, hfull]

/-- The round's notification lines are the formatted first occurrences
of the degraded `("", "", status)` entries: because the `task_map`
lookup always misses, lines read `" - : status"` and deduplication is
effectively by lowercased status alone. -/
theorem runRound_notify_results (cs : List Completion) :
    (runRound cs).notify_results =
      (firstByKey ((cs.filterMap eligibleStatus).map
        (fun s => ("", "", s))) []).map formatEntry := by
  have h1 : runRound cs =
      (cs.map degradeCompletion).foldl
        (fun st c => processResult st c.1 c.2.1 c.2.2) ⟨[], []⟩ := by
    rw [List.foldl_map]
    rfl
  have h2 : (cs.map degradeCompletion).filterMap eligibleEntry =
      (cs.filterMap eligibleStatus).map (fun s => ("", "", s)) := by
    rw [List.filterMap_map, List.map_filterMap]
    exact List.filterMap_congr (fun c _ => eligibleEntry_degrade c)
  rw [h1, ← h2]
  simpa using foldl_processResult_spec (cs.map degradeCompletion) [] []

/-- `hasSubstring` decides substring containment. -/
theorem hasSubstring_iff (needle hay : List Char) :
    hasSubstring needle hay = true ↔ needle <:+: hay := by
  induction hay with
  | nil => simp [hasSubstring, List.isEmpty_iff, List.infix_nil]
  | cons c hay ih =>
    rw [hasSubstring, List.infix_cons_iff, Bool.or_eq_true,
      List.isPrefixOf_iff_prefix, ih]

/-- After deduplication, each key present among the entries (and not
already seen) occurs exactly once; keys already seen occur zero times. -/
theorem count_firstByKey (es : List (String × String × String))
    (ks : List (String × String × String)) (k : String × String × String) :
    ((firstByKey es ks).map entryKey).count k =
      if k ∈ es.map entryKey ∧ k ∉ ks then 1 else 0 := by
  induction es generalizing ks with
  | nil => simp [firstByKey]
  | cons e es ih =>
    by_cases hk : entryKey e ∈ ks
    · rw [firstByKey, if_pos hk, ih ks]
      by_cases hke : k = entryKey e
      · subst hke
        simp [hk]
      · by_cases h1 : k ∈ es.map entryKey <;> by_cases h2 : k ∈ ks <;>
          simp [h1, h2, hke, List.mem_cons]
    · rw [firstByKey, if_neg hk]
      rw [List.map_cons, List.count_cons, ih (entryKey e :: ks)]
      by_cases hke : k = entryKey e
      · subst hke
        simp [hk]
      · by_cases h1 : k ∈ es.map entryKey <;> by_cases h2 : k ∈ ks <;>
          simp [h1, h2, hke, List.mem_cons, Ne.symm hke]

/-- The deduplicated entry list is empty iff there were no eligible
entries (when nothing was seen beforehand). -/
theorem firstByKey_nil_iff (es : List (String × String × String)) :
    firstByKey es [] = [] ↔ es = [] := by
  cases es with
  | nil => simp [firstByKey]
  | cons e es => simp [firstByKey]

end TFTracker

namespace TFTracker

/-- C1 is false of the program (the claim matches the spec's intent, the
code has a slip): in the "beta" round with statuses "Full"/"Open", in
either arrival order, the missed `task_map.get(t)` lookup makes the one
produced line read `" - : Open"` under the dedup key `("", "", "open")`
— not `"beta - http://b: Open"` — though one batch is still
dispatched. -/
theorem claim_C1_actual_output :
    runRound [("beta", "http://a", some "Full"), ("beta", "http://b", some "Open")] =
      ⟨[" - : Open"], [("", "", "open")]⟩ ∧
    runRound [("beta", "http://b", some "Open"), ("beta", "http://a", some "Full")] =
      ⟨[" - : Open"], [("", "", "open")]⟩ ∧
    roundDispatch [("beta", "http://a", some "Full"), ("beta", "http://b", some "Open")] =
      some ⟨"TestFlight 状态更新", " - : Open", some ["bark"]⟩ ∧
    (" - : Open" : String) ≠ "beta - http://b: Open" := by
  refine ⟨by decide, by decide, by decide, by decide⟩

/-- C2 is false of the program (spec intent versus the same `task_map`
slip): the dedup key the code computes is always
`("", "", lowercased status)`, so two completions from distinct
(group, resource) targets sharing the status "Open" produce a single
line `" - : Open"`, where the claimed per-(group, resource, status)
dedup demands two lines. -/
theorem claim_C2_status_collapse :
    runRound [("g1", "u1", some "Open"), ("g2", "u2", some "Open")] =
      ⟨[" - : Open"], [("", "", "open")]⟩ ∧
    (runRound [("g1", "u1", some "Open"),
      ("g2", "u2", some "Open")]).notify_results.length = 1 := by
  refine ⟨by decide, by decide⟩

/-- C3: a completed result whose status text case-insensitively contains
the sentinel substring "full" leaves the round state untouched: no
notification line is appended and no dedup key is added. -/
theorem claim_C3_sentinel_suppressed (st : RoundState) (g u s : String)
    (h : "full".data <:+: (pyLower s).data) :
    processResult st g u (some s) = st := by
  exact processResult_full st g u s ((hasSubstring_iff _ _).mpr h)

/-- Witness for C3 at a concrete sentinel status. -/
theorem claim_C3_witness :
    processResult ⟨[], []⟩ "beta" "http://a" (some "Full") = (⟨[], []⟩ : RoundState) :=
  claim_C3_sentinel_suppressed ⟨[], []⟩ "beta" "http://a" "Full" (by decide)

/-- C4: when every one of the three attempts raises a network-level
error, the fetch returns an absent result (`none`) instead of raising,
the backoff delays slept are exactly 0.5s, 1.0s and 2.0s, and feeding
the absent result to the round loop leaves the round state (and hence
the notification batch) unchanged. -/
theorem claim_C4_retry_exhaustion (outcome : Nat → AttemptOutcome)
    (h : ∀ i, i < 3 → outcome i = .error ()) :
    fetchWithRetry outcome = (none, [1 / 2, 1, 2]) ∧
    ∀ (st : RoundState) (g u : String),
      processResult st g u (fetchWithRetry outcome).1 = st := by
  have h0 := h 0 (by norm_num)
  have h1 := h 1 (by norm_num)
  have h2 := h 2 (by norm_num)
  have hmain : fetchWithRetry outcome = (none, [1 / 2, 1, 2]) := by
    simp only [fetchWithRetry, retryLoop, h0, h1, h2]
    norm_num
  refine ⟨hmain, fun st g u => ?_⟩
  rw [hmain]
  rfl

/-- Witness for C4: all three attempts fail. -/
theorem claim_C4_witness :
    fetchWithRetry (fun _ => Except.error ()) = (none, [1 / 2, 1, 2]) ∧
    ∀ (st : RoundState) (g u : String),
      processResult st g u (fetchWithRetry (fun _ => Except.error ())).1 = st :=
  claim_C4_retry_exhaustion (fun _ => Except.error ()) (fun _ _ => rfl)

/-- C7: a round dispatches a batch iff at least one completed result
survives the truthiness and sentinel filters, and every dispatched
batch carries the fixed title, the newline-join of the round's
deduplicated formatted lines in arrival order (which, by the missed
`task_map` lookup, are the `" - : status"` lines deduplicated by
lowercased status), and the `["bark"]` platform list; with no eligible
result no dispatch of any kind happens. -/
theorem claim_C7_batch_iff (cs : List Completion) :
    (roundDispatch cs = none ↔ cs.filterMap eligibleStatus = []) ∧
    ∀ b : NotificationBatch, roundDispatch cs = some b →
      b.title = "TestFlight 状态更新" ∧
      b.content = String.intercalate "\n"
        ((firstByKey ((cs.filterMap eligibleStatus).map
          (fun s => ("", "", s))) []).map formatEntry) ∧
      b.platforms = some ["bark"] := by
  have hnr := runRound_notify_results cs
  by_cases h : (runRound cs).notify_results.isEmpty
  · have hempty : (firstByKey ((cs.filterMap eligibleStatus).map
        (fun s => ("", "", s))) []).map formatEntry = [] := by
      rw [← hnr]
      exact List.isEmpty_iff.mp h
    constructor
    · rw [roundDispatch]
      simp only [h, ite_true]
      have hfk := List.map_eq_nil_iff.mp hempty
      rw [firstByKey_nil_iff] at hfk
      exact iff_of_true trivial (List.map_eq_nil_iff.mp hfk)
    · intro b hb
      rw [roundDispatch] at hb
      simp [h] at hb
  · constructor
    · rw [roundDispatch]
      simp only [h, ite_false]
      constructor
      · intro hcontra
        exact absurd hcontra (by simp)
      · intro hfm
        exfalso
        apply h
        rw [List.isEmpty_iff, hnr, hfm]
        simp [firstByKey]
    · intro b hb
      rw [roundDispatch] at hb
      rw [if_neg (by simpa using h)] at hb
      have hb2 := Option.some_inj.mp hb
      subst hb2
      exact ⟨rfl, by rw [hnr], rfl⟩

/-- Witness for C7 at a concrete one-result round (whose line, by the
missed lookup, is `" - : Open"`). -/
theorem claim_C7_witness :
    (NotificationBatch.mk "TestFlight 状态更新" " - : Open"
        (some ["bark"])).title = "TestFlight 状态更新" ∧
    (NotificationBatch.mk "TestFlight 状态更新" " - : Open"
        (some ["bark"])).content = String.intercalate "\n"
      ((firstByKey ((([("beta", "http://b", some "Open")] :
          List Completion).filterMap eligibleStatus).map
            (fun s => ("", "", s))) []).map formatEntry) ∧
    (NotificationBatch.mk "TestFlight 状态更新" " - : Open"
        (some ["bark"])).platforms = some ["bark"] :=
  (claim_C7_batch_iff [("beta", "http://b", some "Open")]).2
    (NotificationBatch.mk "TestFlight 状态更新" " - : Open"
      (some ["bark"])) (by decide)

theorem gatherOutcomes_length (beh : Nat → SendSpec) (ts : List SendTask)
    (i : Nat) : (gatherOutcomes beh i ts).length = ts.length := by
  induction ts generalizing i with
  | nil => rfl
  | cons t ts ih => simp [gatherOutcomes, ih]

theorem gatherOutcomes_getD (beh : Nat → SendSpec) (d : SendOutcome)
    (dt : SendTask) (ts : List SendTask) (i j : Nat) (hj : j < ts.length) :
    (gatherOutcomes beh i ts).getD j d =
      runSendTask (ts.getD j dt) (beh (i + j)) := by
  induction ts generalizing i j with
  | nil => exact absurd hj (by simp)
  | cons t ts ih =>
    match j with
    | 0 => simp [gatherOutcomes]
    | j + 1 =>
      have hj' : j < ts.length := by simpa using hj
      have := ih (i + 1) j hj'
      simp only [gatherOutcomes, List.getD_cons_succ]
      rw [this]
      ring_nf

/-- C5: when among the N queued sends exactly the i-th one's network
interaction raises and every other send succeeds, `notify` still returns
one outcome per queued task, the j-th outcome is exactly the j-th task's
own result for every j, and the j-th outcome is marked failed iff
`j = i`. -/
theorem claim_C5_partial_failure (config : NotifyConfig)
    (platforms : Option (List String)) (beh : Nat → SendSpec) (i : Nat)
    (hi : i < (notifyTaskList config platforms).length)
    (hfail : (runSendTask ((notifyTaskList config platforms).getD i
      (SendTask.barkT "")) (beh i)).success = false)
    (hok : ∀ j, j < (notifyTaskList config platforms).length → j ≠ i →
      (runSendTask ((notifyTaskList config platforms).getD j
        (SendTask.barkT "")) (beh j)).success = true) :
    (notifyModel config beh platforms).length =
      (notifyTaskList config platforms).length ∧
    (∀ j, j < (notifyTaskList config platforms).length →
      (notifyModel config beh platforms).getD j ⟨true, ""⟩ =
        runSendTask ((notifyTaskList config platforms).getD j
          (SendTask.barkT "")) (beh j)) ∧
    ∀ j, j < (notifyTaskList config platforms).length →
      (((notifyModel config beh platforms).getD j ⟨true, ""⟩).success = false
        ↔ j = i) := by
  have hget : ∀ j, j < (notifyTaskList config platforms).length →
      (notifyModel config beh platforms).getD j ⟨true, ""⟩ =
        runSendTask ((notifyTaskList config platforms).getD j
          (SendTask.barkT "")) (beh j) := by
    intro j hj
    have := gatherOutcomes_getD beh ⟨true, ""⟩ (SendTask.barkT "")
      (notifyTaskList config platforms) 0 j hj
    simpa [notifyModel] using this
  refine ⟨gatherOutcomes_length beh _ 0, hget, fun j hj => ?_⟩
  rw [hget j hj]
  constructor
  · intro hjfail
    by_contra hne
    rw [hok j hj hne] at hjfail
    exact absurd hjfail (by simp)
  · intro hji
    subst hji
    exact hfail

/-- Witness for C5: webhook endpoint "w1" raises, bark endpoint "b1"
succeeds; both outcomes are present and exactly the first is failed. -/
theorem claim_C5_witness :
    (notifyModel ⟨["w1"], [], ["b1"]⟩
      (fun j => if j = 0 then SendSpec.fails "boom" else SendSpec.succeeds "ok")
      none).length = (notifyTaskList ⟨["w1"], [], ["b1"]⟩ none).length ∧
    (∀ j, j < (notifyTaskList ⟨["w1"], [], ["b1"]⟩ none).length →
      (notifyModel ⟨["w1"], [], ["b1"]⟩
        (fun j => if j = 0 then SendSpec.fails "boom" else SendSpec.succeeds "ok")
        none).getD j ⟨true, ""⟩ =
        runSendTask ((notifyTaskList ⟨["w1"], [], ["b1"]⟩ none).getD j
          (SendTask.barkT ""))
          (if j = 0 then SendSpec.fails "boom" else SendSpec.succeeds "ok")) ∧
    ∀ j, j < (notifyTaskList ⟨["w1"], [], ["b1"]⟩ none).length →
      (((notifyModel ⟨["w1"], [], ["b1"]⟩
        (fun j => if j = 0 then SendSpec.fails "boom" else SendSpec.succeeds "ok")
        none).getD j ⟨true, ""⟩).success = false ↔ j = 0) :=
  claim_C5_partial_failure ⟨["w1"], [], ["b1"]⟩ none
    (fun j => if j = 0 then SendSpec.fails "boom" else SendSpec.succeeds "ok")
    0 (by decide) (by decide)
    (fun j hj hne => by
      have hlen : (notifyTaskList ⟨["w1"], [], ["b1"]⟩ none).length = 2 := by
        decide
      rw [hlen] at hj
      interval_cases j
      · exact absurd rfl hne
      · decide)

/-- Every dispatched batch carries `platforms = some ["bark"]`. -/
theorem roundDispatch_platforms (cs : List Completion)
    (b : NotificationBatch) (hb : roundDispatch cs = some b) :
    b.platforms = some ["bark"] := by
  rw [roundDispatch] at hb
  by_cases h : (runRound cs).notify_results.isEmpty
  · rw [if_pos h] at hb
    exact absurd hb (by simp)
  · rw [if_neg (by simpa using h)] at hb
    have hb2 := Option.some_inj.mp hb
    subst hb2
    rfl

/-- C8: whatever webhook, wechat and bark endpoints are configured, the
task list built for the platforms of a batch dispatched by the round
orchestrator contains only bark tasks: webhook and wechat endpoints are
never contacted by the round's dispatch. -/
theorem claim_C8_bark_only (cs : List Completion) (b : NotificationBatch)
    (config : NotifyConfig) (hb : roundDispatch cs = some b) :
    ∀ t ∈ notifyTaskList config b.platforms, channelOf t = "bark" := by
  intro t ht
  rw [roundDispatch_platforms cs b hb] at ht
  simp only [notifyTaskList, wantChannel] at ht
  norm_num at ht
  rcases ht with ⟨h, _⟩ | ⟨h, _⟩ | ⟨u, _, rfl⟩
  · exact absurd h (by decide)
  · exact absurd h (by decide)
  · rfl

/-- Witness for C8: a round with one open status dispatches, and with a
config holding endpoints of all three kinds only a bark task is built. -/
theorem claim_C8_witness :
    channelOf (SendTask.barkT "bk") = "bark" :=
  claim_C8_bark_only [("beta", "http://b", some "Open")]
    (NotificationBatch.mk "TestFlight 状态更新" " - : Open"
      (some ["bark"]))
    ⟨["w"], [⟨"c", "a", some "s", "u"⟩], ["bk"]⟩
    (by decide) (SendTask.barkT "bk") (by decide)

theorem filter_map_channel {α : Type} (l : List α) (f : α → SendTask)
    (p : SendTask → Bool) (b : Bool) (h : ∀ x, p (f x) = b) :
    (l.map f).filter p = if b then l.map f else [] := by
  induction l with
  | nil => cases b <;> simp
  | cons x l ih => cases b <;> simp [h, ih]

/-- C10: with `platforms = None` one task is created per configured
endpoint of all three channel types, in order; with an explicit
`platforms` list, exactly the endpoints whose channel name appears in
the list are kept. -/
theorem claim_C10_platform_filter (config : NotifyConfig) :
    notifyTaskList config none =
      config.webhook.map SendTask.webhookT
        ++ config.wechat.map SendTask.wechatT
        ++ config.bark.map SendTask.barkT ∧
    ∀ ps : List String, notifyTaskList config (some ps) =
      (notifyTaskList config none).filter
        (fun t => ps.contains (channelOf t)) := by
  constructor
  · simp [notifyTaskList, wantChannel]
  · intro ps
    have hw := filter_map_channel config.webhook SendTask.webhookT
      (fun t => ps.contains (channelOf t)) (ps.contains "webhook")
      (fun x => rfl)
    have hc := filter_map_channel config.wechat SendTask.wechatT
      (fun t => ps.contains (channelOf t)) (ps.contains "wechat")
      (fun x => rfl)
    have hb := filter_map_channel config.bark SendTask.barkT
      (fun t => ps.contains (channelOf t)) (ps.contains "bark")
      (fun x => rfl)
    simp only [notifyTaskList, wantChannel, if_true, List.filter_append,
      hw, hc, hb]

/-- C9 is false of the program in its "raises no error for any pad-byte
value" part: a valid 16-byte key with AES output 15 × 0x80 followed by
pad byte 1 truncates to the non-UTF-8 remainder 15 × 0x80, and the
`.decode()` of notify.py line 43 raises `UnicodeDecodeError`. -/
theorem claim_C9_counterexample :
    decrypt_secret (some (List.replicate 16 1))
      (fun _ _ => List.replicate 15 128 ++ [1]) [0] =
      .error "UnicodeDecodeError" := by
  rfl

/-- C9 as amended: `decrypt_secret` performs no padding validation — it
unconditionally truncates `n` trailing bytes, `n` being the last
decrypted byte, and no pad-byte value is rejected as such; `n = 0` and
`n` beyond the plaintext length yield the empty string (which always
decodes); but the truncated remainder must decode as UTF-8, a non-UTF-8
remainder raising `UnicodeDecodeError`. -/
theorem claim_C9_truncation (key : Bytes)
    (aesDecrypt : Bytes → Bytes → Bytes) (secret_enc : Bytes) (n : Nat)
    (hk : aesKeySizeValid key = true)
    (hlast : (aesDecrypt key secret_enc).getLast? = some n) :
    decrypt_secret (some key) aesDecrypt secret_enc =
      (if validUtf8 (pyDropTrailing (aesDecrypt key secret_enc) n)
        then .ok (pyDropTrailing (aesDecrypt key secret_enc) n)
        else .error "UnicodeDecodeError") ∧
    (n = 0 → decrypt_secret (some key) aesDecrypt secret_enc = .ok []) ∧
    ((aesDecrypt key secret_enc).length < n →
      decrypt_secret (some key) aesDecrypt secret_enc = .ok []) := by
  have hne : key.isEmpty = false := by
    cases key with
    | nil => simp [aesKeySizeValid] at hk
    | cons a l => rfl
  have hmain : decrypt_secret (some key) aesDecrypt secret_enc =
      (if validUtf8 (pyDropTrailing (aesDecrypt key secret_enc) n)
        then .ok (pyDropTrailing (aesDecrypt key secret_enc) n)
        else .error "UnicodeDecodeError") := by
    simp [decrypt_secret, hne, hk, hlast]
  have hv : validUtf8 ([] : List Nat) = true := rfl
  refine ⟨hmain, fun h0 => ?_, fun hgt => ?_⟩
  · rw [hmain, h0]
    simp [pyDropTrailing, hv]
  · rw [hmain]
    have hz : (aesDecrypt key secret_enc).length - n = 0 :=
      Nat.sub_eq_zero_of_le (Nat.le_of_lt hgt)
    have hn0 : n ≠ 0 := by
      intro h0
      rw [h0] at hgt
      exact absurd hgt (by simp)
    simp [pyDropTrailing, hz, hn0, hv]

/-- Witness for the amended C9 at a concrete decryption whose remainder
is valid UTF-8. -/
theorem claim_C9_witness :
    decrypt_secret (some (List.replicate 16 1)) (fun _ _ => [65, 66, 2]) [0] =
      (if validUtf8 (pyDropTrailing [65, 66, 2] 2)
        then .ok (pyDropTrailing [65, 66, 2] 2)
        else .error "UnicodeDecodeError") ∧
    ((2 : Nat) = 0 → decrypt_secret (some (List.replicate 16 1))
      (fun _ _ => [65, 66, 2]) [0] = .ok []) ∧
    (([65, 66, 2] : Bytes).length < 2 →
      decrypt_secret (some (List.replicate 16 1))
        (fun _ _ => [65, 66, 2]) [0] = .ok []) :=
  claim_C9_truncation (List.replicate 16 1) (fun _ _ => [65, 66, 2])
    [0] 2 (by decide) (by decide)

/-- Counterexample to C6 as stated: with a validly sized 16-byte key and
a decryption whose pad byte 17 exceeds the 16-byte block size (invalid
PKCS padding), `decrypt_secret` raises nothing and silently returns a
(here empty) plaintext. -/
theorem claim_C6_counterexample :
    decrypt_secret (some (List.replicate 16 1))
      (fun _ _ => List.replicate 15 65 ++ [17]) [0] = .ok [] := by
  rfl

/-- C6 as amended: `decrypt_secret` fails when the key is absent (or
falsy) and when the key size is invalid; but it performs no padding
validation — with a valid key no pad-byte value is itself rejected: the
truncated remainder is returned whenever it decodes as UTF-8 (the empty
remainder always does), only a non-UTF-8 remainder raising
`UnicodeDecodeError`. -/
theorem claim_C6_amended_key_errors (aesDecrypt : Bytes → Bytes → Bytes)
    (secret_enc : Bytes) (key : Bytes) :
    decrypt_secret none aesDecrypt secret_enc = .error "AES key 未提供" ∧
    (aesKeySizeValid key = false →
      ∃ e, decrypt_secret (some key) aesDecrypt secret_enc = .error e) ∧
    (aesKeySizeValid key = true →
      ∀ n, (aesDecrypt key secret_enc).getLast? = some n →
        decrypt_secret (some key) aesDecrypt secret_enc =
          (if validUtf8 (pyDropTrailing (aesDecrypt key secret_enc) n)
            then .ok (pyDropTrailing (aesDecrypt key secret_enc) n)
            else .error "UnicodeDecodeError")) := by
  refine ⟨rfl, fun hbad => ?_, fun hk n hlast => ?_⟩
  · by_cases hne : key.isEmpty
    · exact ⟨"AES key 未提供", by simp [decrypt_secret, hne]⟩
    · exact ⟨"Incorrect AES key length", by
        simp [decrypt_secret, hne, hbad]⟩
  · have hne : key.isEmpty = false := by
      cases key with
      | nil => simp [aesKeySizeValid] at hk
      | cons a l => rfl
    simp [decrypt_secret, hne, hk, hlast]

/-- Witness for the amended C6: an undersized 1-byte key errors; a valid
16-byte key with pad byte 2 silently truncates to a remainder that
decodes. -/
theorem claim_C6_amended_witness :
    (∃ e, decrypt_secret (some [1]) (fun _ _ => [2]) [0] = Except.error e) ∧
    decrypt_secret (some (List.replicate 16 1)) (fun _ _ => [7, 8, 2]) [0] =
      (if validUtf8 (pyDropTrailing [7, 8, 2] 2)
        then .ok (pyDropTrailing [7, 8, 2] 2)
        else .error "UnicodeDecodeError") :=
  ⟨(claim_C6_amended_key_errors (fun _ _ => [2]) [0] [1]).2.1 (by decide),
   (claim_C6_amended_key_errors (fun _ _ => [7, 8, 2]) [0]
     (List.replicate 16 1)).2.2 (by decide) 2 (by decide)⟩

end TFTracker
